import Mathlib

/-!
Verification of the storage wrapper (`src/cloud_storage/aws_storage.py`) and the
model-loading adapter (`src/entity/s3_estimator.py`) of the insurancemodel
repository, against its natural-language specification.

The storage backend (boto3 / S3) and the local filesystem are modelled as an
explicit environment and an explicit mutable store; object bodies and local file
contents are modelled as `String` tokens.  Python exceptions become `Except` /
`Option` error values; the network side effects relevant to the spec's caching
and counting claims are recorded in explicit event traces.
-/

/-- Errors raised by the wrapper.  In the Python source every exception is
wrapped into `MyException`; the constructors here keep the distinct causes
apart so that claims about particular failure kinds can be stated. -/
inductive PyErr where
  /-- Error `MyException("File '<filename>' not found in bucket '<bucket>'")` raised by
  `get_file_object` on an empty listing. -/
  | notFound (filename bucket_name : String)
  /-- The backend reports no object at the given bucket/key on a body fetch. -/
  | noSuchKey (bucket_name key : String)
  /-- Error of `StringIO` applied to raw bytes (only reachable with `decode=False,
  make_readable=True`, a combination the repository never uses). -/
  | typeError
  /-- A non-`ClientError` exception escaping the head request in `create_folder`. -/
  | headError
  /-- Failure of the backend upload call in `upload_file`. -/
  | uploadFailed
  /-- Error of `os.remove` on a path with no file. -/
  | fileMissing (path : String)
  /-- Error of `pickle.loads` failure. -/
  | pickleError
  deriving DecidableEq, Repr

/-- Observable side effects of the read/load path, used by the spec's
counting claims (one network read, one deserialization). -/
inductive SEvent where
  /-- A `bucket.objects.filter(Prefix=s3_key)` listing request. -/
  | listObj (bucket_name s3_key : String)
  /-- A full-object body fetch: `object.get()["Body"].read()`. -/
  | netRead (bucket_name key : String)
  /-- A `pickle.loads` deserialization. -/
  | deserialize
  deriving DecidableEq, Repr

/-- An injected failure of the head request (`Object(...).load()`) used by
`create_folder`, beyond the store-derived 404. -/
inductive HeadFault where
  /-- Exception `botocore.exceptions.ClientError` carrying the given error code. -/
  | clientError (code : String)
  /-- Any exception that is not a `ClientError`. -/
  | otherError
  deriving DecidableEq, Repr

/-- The storage backend and the opaque external collaborators (pickle, the
deserialized model), modelled as an environment of functions.
`listObjects` returns summary keys in backend order; `getBody` is the
full-object fetch; `headFault` injects head-request failures for
`create_folder`; `uploadFault` injects failures of the backend upload call;
`unpickle` models `pickle.loads` (a model instance is an opaque `Nat` id);
`runPredict` models the deserialized model's `predict` capability. -/
structure S3Env where
  listObjects : String → String → List String
  getBody : String → String → Option String
  headFault : String → String → Option HeadFault
  uploadFault : String → String → String → Bool
  unpickle : String → Option Nat
  runPredict : Nat → String → String

/-- Mutable state: the bucket objects (bucket, key ↦ body) and the local
filesystem (path ↦ content). -/
structure Store where
  objects : String → String → Option String
  local_files : String → Option String

/-- Embeds `s3_client.put_object` / a completed upload: full-object overwrite. -/
def putObject (st : Store) (bucket_name key body : String) : Store :=
  { st with objects := fun b k => if b = bucket_name ∧ k = key then some body else st.objects b k }

/-- A resolved `s3.Object` handle: bucket plus exact key, supports `.get()`.
Distinct from a listing summary, which is just a key in a listing. -/
structure S3Obj where
  bucket_name : String
  key : String
  deriving DecidableEq, Repr

/-- A Python value returned by `read_object`: raw bytes, decoded text, or a
`StringIO` readable stream over decoded text (position 0). -/
inductive PyVal where
  | raw (b : String)
  | text (s : String)
  | readable (s : String)
  deriving DecidableEq, Repr

namespace SimpleStorageService

/-- Embeds `SimpleStorageService.s3_key_path_available`: lists objects under the
prefix and returns `len(file_objects) > 0`. -/
def s3_key_path_available (env : S3Env) (bucket_name s3_key : String) : Bool :=
  decide (0 < (env.listObjects bucket_name s3_key).length)

/-- Embeds `SimpleStorageService.get_file_object`: lists summaries under the prefix
`filename`; raises not-found on an empty listing, otherwise takes the key of
the first summary as reported and builds the `s3.Object` handle from it. -/
def get_file_object (env : S3Env) (filename bucket_name : String) :
    Except PyErr (S3Obj × List SEvent) :=
  match env.listObjects bucket_name filename with
  | [] => .error (.notFound filename bucket_name)
  | key :: _ => .ok (⟨bucket_name, key⟩, [.listObj bucket_name filename])

/-- Default of the `decode` parameter of `read_object` (Python: `decode: bool = True`). -/
def decode_default : Bool := true

/-- Default of the `make_readable` parameter of `read_object`
(Python: `make_readable: bool = False`). -/
def make_readable_default : Bool := false

/-- Embeds `SimpleStorageService.read_object`: one full-object fetch; `decode` turns
the bytes into text, `make_readable` wraps the result in `StringIO` (which in
Python only accepts text, hence the error on raw bytes). -/
def read_object (env : S3Env) (object_name : S3Obj) (decode make_readable : Bool) :
    Except PyErr (PyVal × List SEvent) :=
  match env.getBody object_name.bucket_name object_name.key with
  | none => .error (.noSuchKey object_name.bucket_name object_name.key)
  | some body =>
    let v : PyVal := if decode then .text body else .raw body
    if make_readable then
      match v with
      | .text s => .ok (.readable s, [.netRead object_name.bucket_name object_name.key])
      | _ => .error .typeError
    else
      .ok (v, [.netRead object_name.bucket_name object_name.key])

/-- Embeds `SimpleStorageService.load_model`: joins `model_dir`/`model_name` when a
directory is given, resolves the handle, reads it undecoded (raw bytes) and
deserializes with `pickle.loads`. -/
def load_model (env : S3Env) (model_name bucket_name : String) (model_dir : Option String) :
    Except PyErr (Nat × List SEvent) :=
  let model_file := match model_dir with
    | some d => d ++ "/" ++ model_name
    | none => model_name
  (get_file_object env model_file bucket_name).bind fun fo =>
    (read_object env fo.1 false make_readable_default).bind fun rv =>
      match rv.1 with
      | .raw b =>
        match env.unpickle b with
        | some model => .ok (model, fo.2 ++ rv.2 ++ [.deserialize])
        | none => .error .pickleError
      | _ => .error .pickleError

/-- The write performed by `create_folder` when it creates the marker. -/
inductive CFEvent where
  | put (bucket_name key : String)
  deriving DecidableEq, Repr

/-- Embeds `SimpleStorageService.create_folder`: heads `folder_name` (exactly, without
a trailing slash) via `Object(bucket, folder_name).load()`.  Only
`ClientError` is caught: code `"404"` triggers
`put_object(Bucket=bucket, Key=folder_name + "/")` (a zero-byte body), any
other code falls through the `if` and the call returns normally; a
non-`ClientError` exception propagates.  The head outcome is derived from the
store (object present ↦ success, absent ↦ `ClientError` 404) unless a fault
is injected by the environment. -/
def create_folder (env : S3Env) (st : Store) (folder_name bucket_name : String) :
    Except PyErr (Store × List CFEvent) :=
  match env.headFault bucket_name folder_name with
  | some .otherError => .error .headError
  | some (.clientError code) =>
    if code = "404" then
      .ok (putObject st bucket_name (folder_name ++ "/") "",
           [.put bucket_name (folder_name ++ "/")])
    else
      .ok (st, [])
  | none =>
    match st.objects bucket_name folder_name with
    | some _ => .ok (st, [])
    | none =>
      .ok (putObject st bucket_name (folder_name ++ "/") "",
           [.put bucket_name (folder_name ++ "/")])

/-- Embeds `os.remove`: deletes the file, raising when the path has no file. -/
def os_remove (st : Store) (path : String) : Except PyErr Store :=
  match st.local_files path with
  | none => .error (.fileMissing path)
  | some _ => .ok { st with local_files := fun p => if p = path then none else st.local_files p }

/-- Default of the `remove` parameter of `upload_file` (Python: `remove: bool = True`). -/
def remove_default : Bool := true

/-- Embeds `SimpleStorageService.upload_file`: the backend upload call reads the local
file and streams it to the bucket key (failing if the file is absent or the
backend call faults, with no mutation in either case); only after a successful
upload, when `remove` is set, the local file is deleted.  The Python body
mutates nothing before the upload call, so a failure returns the state
unchanged. -/
def upload_file (env : S3Env) (st : Store) (from_filename to_filename bucket_name : String)
    (remove : Bool) : Store × Option PyErr :=
  match st.local_files from_filename with
  | none => (st, some .uploadFailed)
  | some body =>
    if env.uploadFault from_filename bucket_name to_filename then
      (st, some .uploadFailed)
    else
      let st1 := putObject st bucket_name to_filename body
      if remove then
        match os_remove st1 from_filename with
        | .ok st2 => (st2, none)
        | .error e => (st1, some e)
      else
        (st1, none)

/-- An in-memory table to be serialized: named columns and rows of cells. -/
structure DataFrame where
  headers : List String
  rows : List (List String)
  deriving DecidableEq, Repr

/-- Model of pandas `DataFrame.to_csv(path, index=None, header=True)` as the
spec describes the serialization (§6): a header row followed by one line per
row, comma-delimited, trailing newline, and no synthetic row-index column
emitted. -/
def to_csv (df : DataFrame) : String :=
  String.intercalate "\n"
    (String.intercalate "," df.headers :: df.rows.map (String.intercalate ",")) ++ "\n"

/-- Embeds `SimpleStorageService.upload_df_as_csv`: writes the serialized table to
`local_filename` (overwriting), then calls `upload_file` leaving the `remove`
parameter at its default. -/
def upload_df_as_csv (env : S3Env) (st : Store) (data_frame : DataFrame)
    (local_filename bucket_filename bucket_name : String) : Store × Option PyErr :=
  let st1 : Store :=
    { st with local_files := fun p =>
        if p = local_filename then some (to_csv data_frame) else st.local_files p }
  upload_file env st1 local_filename bucket_filename bucket_name remove_default

/-- The table produced by reading: cells are optional, `none` being a missing
value. -/
structure ParsedFrame where
  headers : List String
  rows : List (List (Option String))
  deriving DecidableEq, Repr

/-- Splitting a character list at every occurrence of a separator
(structural recursion, so concrete instances evaluate in the kernel). -/
def splitChar (sep : Char) : List Char → List Char → List (List Char)
  | [], acc => [acc.reverse]
  | c :: cs, acc =>
    if c = sep then acc.reverse :: splitChar sep cs [] else splitChar sep cs (c :: acc)

/-- Splitting a string at every occurrence of a separator character. -/
def splitStr (sep : Char) (s : String) : List String :=
  (splitChar sep s.data []).map List.asString

/-- Model of pandas `read_csv(stream, na_values=na)` as the spec describes the
format (§6): delimited text, headers from the first row, and a cell equal to
the sentinel reads as a missing value. -/
def read_csv_model (na : String) (content : String) : ParsedFrame :=
  match (splitStr '\n' content).filter (fun l => l ≠ "") with
  | [] => ⟨[], []⟩
  | h :: rest =>
    ⟨splitStr ',' h,
     rest.map fun r => (splitStr ',' r).map fun c => if c = na then none else some c⟩

/-- Embeds `SimpleStorageService.get_df_from_object`: `read_object(obj,
make_readable=True)` (so `decode` stays at its default `True`: text wrapped as
a readable stream), then `read_csv(content, na_values="na")`. -/
def get_df_from_object (env : S3Env) (object_ : S3Obj) :
    Except PyErr (ParsedFrame × List SEvent) :=
  (read_object env object_ decode_default true).bind fun rv =>
    match rv.1 with
    | .readable s => .ok (read_csv_model "na" s, rv.2)
    | _ => .error .typeError

end SimpleStorageService

open SimpleStorageService

/-- Embeds `Proj1Estimator`: bucket, configured model key, and the single nullable
cache field `loaded_model` (`None` ↦ Unloaded, `Some model` ↦ Loaded). -/
structure Proj1Estimator where
  bucket_name : String
  model_path : String
  loaded_model : Option Nat
  deriving DecidableEq, Repr

namespace Proj1Estimator

/-- Embeds `Proj1Estimator.is_model_present`: delegates to `s3_key_path_available`. -/
def is_model_present (env : S3Env) (est : Proj1Estimator) (model_path : String) : Bool :=
  s3_key_path_available env est.bucket_name model_path

/-- Embeds `Proj1Estimator.load_model`: delegates to
`SimpleStorageService.load_model` with the configured key and bucket
(`model_dir` left at its default `None`).  It neither consults nor updates
`loaded_model`. -/
def load_model (env : S3Env) (est : Proj1Estimator) : Except PyErr (Nat × List SEvent) :=
  SimpleStorageService.load_model env est.model_path est.bucket_name none

/-- Embeds `Proj1Estimator.predict`: when `loaded_model` is `None`, loads from S3 and
stores the instance in `loaded_model`; then runs the cached model's `predict`
on the dataframe.  Returns the updated estimator, the prediction, and the
trace of backend events of this call. -/
def predict (env : S3Env) (est : Proj1Estimator) (dataframe : String) :
    Except PyErr (Proj1Estimator × String × List SEvent) :=
  match est.loaded_model with
  | none =>
    (load_model env est).map fun mv =>
      let est1 : Proj1Estimator := { est with loaded_model := some mv.1 }
      (est1, env.runPredict mv.1 dataframe, mv.2)
  | some model => .ok (est, env.runPredict model dataframe, [])

end Proj1Estimator

/-- Runs `n` consecutive `predict()` calls on one adapter, threading the estimator
state and concatenating the event traces; any failing call aborts the run. -/
def predictN (env : S3Env) (est : Proj1Estimator) (dataframe : String) :
    Nat → Except PyErr (Proj1Estimator × List SEvent)
  | 0 => .ok (est, [])
  | n + 1 =>
    (Proj1Estimator.predict env est dataframe).bind fun r =>
      (predictN env r.1 dataframe n).map fun r2 => (r2.1, r.2.2 ++ r2.2)

/-- Number of full-object network reads in a trace. -/
def countReads (evs : List SEvent) : Nat :=
  (evs.filter fun e => match e with | .netRead _ _ => true | _ => false).length

/-- Number of deserializations in a trace. -/
def countDeser (evs : List SEvent) : Nat :=
  (evs.filter fun e => match e with | .deserialize => true | _ => false).length

/-- C6: `s3_key_path_available` is true exactly on a non-empty backend listing. -/
theorem s3_key_path_available_iff_listing_nonempty (env : S3Env) (bucket_name s3_key : String) :
    s3_key_path_available env bucket_name s3_key = true ↔
      env.listObjects bucket_name s3_key ≠ [] := by
  simp [s3_key_path_available, List.length_pos]

/-- C1: on a non-empty backend listing, `get_file_object` returns the handle
whose key is the key of the first listed summary, exactly as reported by the
backend (the listing is consumed in order, never reordered). -/
theorem get_file_object_first_of_listing (env : S3Env) (filename bucket_name k : String)
    (ks : List String) (h : env.listObjects bucket_name filename = k :: ks) :
    get_file_object env filename bucket_name =
      .ok (⟨bucket_name, k⟩, [.listObj bucket_name filename]) ∧
    (S3Obj.mk bucket_name k).key = (env.listObjects bucket_name filename).head (by simp [h]) := by
  constructor
  · simp [get_file_object, h]
  · simp [h]

/-- C7: on an empty backend listing, `get_file_object` fails with the
not-found error instead of returning a handle. -/
theorem get_file_object_empty_listing_notFound (env : S3Env) (filename bucket_name : String)
    (h : env.listObjects bucket_name filename = []) :
    get_file_object env filename bucket_name = .error (.notFound filename bucket_name) := by
  simp [get_file_object, h]

/-- A concrete backend used to instantiate the theorems: one bucket
`"models"` holding one object `"prod/model.pkl"` whose body unpickles to
model id 5, no injected faults. -/
def wEnv : S3Env where
  listObjects := fun b s3_key =>
    if b = "models" ∧ s3_key = "prod/model.pkl" then ["prod/model.pkl"] else []
  getBody := fun b k => if b = "models" ∧ k = "prod/model.pkl" then some "PKLBYTES" else none
  headFault := fun _ _ => none
  uploadFault := fun _ _ _ => false
  unpickle := fun b => if b = "PKLBYTES" then some 5 else none
  runPredict := fun model _ => "pred" ++ toString model

/-- Witness for C1 at the concrete backend. -/
theorem get_file_object_first_of_listing_witness :
    get_file_object wEnv "prod/model.pkl" "models" =
      .ok (⟨"models", "prod/model.pkl"⟩, [.listObj "models" "prod/model.pkl"]) :=
  (get_file_object_first_of_listing wEnv "prod/model.pkl" "models" "prod/model.pkl" []
    (by simp [wEnv])).1

/-- Witness for C7 at the concrete backend (a prefix with no matches). -/
theorem get_file_object_empty_listing_notFound_witness :
    get_file_object wEnv "absent/key" "models" = .error (.notFound "absent/key" "models") :=
  get_file_object_empty_listing_notFound wEnv "absent/key" "models" (by simp [wEnv])

/-- Lemma: `putObject` leaves the local filesystem untouched. -/
theorem putObject_local_files (st : Store) (b k v : String) :
    (putObject st b k v).local_files = st.local_files := rfl

/-- Helper: a successful `upload_file` with `remove = true` leaves no file at
the source path. -/
theorem upload_file_true_success_local_none (env : S3Env) (st : Store)
    (from_filename to_filename bucket_name : String)
    (h : (upload_file env st from_filename to_filename bucket_name true).2 = none) :
    (upload_file env st from_filename to_filename bucket_name true).1.local_files
      from_filename = none := by
  unfold upload_file at *
  cases h1 : st.local_files from_filename with
  | none => simp [h1] at h
  | some body =>
    by_cases h2 : env.uploadFault from_filename bucket_name to_filename = true
    · simp [h1, h2] at h
    · simp only [Bool.not_eq_true] at h2
      simp [h2, os_remove, putObject_local_files, h1]

/-- Helper: if the upload step itself fails (missing local file or a backend
fault), `upload_file` returns the state unchanged with an error. -/
theorem upload_file_failure_state_unchanged (env : S3Env) (st : Store)
    (from_filename to_filename bucket_name : String) (remove : Bool)
    (h : st.local_files from_filename = none ∨
         env.uploadFault from_filename bucket_name to_filename = true) :
    ∃ e, upload_file env st from_filename to_filename bucket_name remove = (st, some e) := by
  unfold upload_file
  rcases h with h | h
  · simp [h]
  · cases h1 : st.local_files from_filename with
    | none => simp
    | some body => simp [h]

/-- C5: with `remove = true` (the spec's `deleteLocalAfter=true`), a
successful `upload_file` leaves no file at the source path; and when the
upload step itself fails (missing local file or a backend fault) the call
errors with the whole state unchanged, so the local file is untouched —
deletion happens only after a successful upload. -/
theorem upload_file_deletes_only_after_success (env : S3Env) (st : Store)
    (from_filename to_filename bucket_name : String) :
    ((upload_file env st from_filename to_filename bucket_name true).2 = none →
      (upload_file env st from_filename to_filename bucket_name true).1.local_files
        from_filename = none) ∧
    ((st.local_files from_filename = none ∨
        env.uploadFault from_filename bucket_name to_filename = true) →
      ∃ e, upload_file env st from_filename to_filename bucket_name true = (st, some e)) :=
  ⟨upload_file_true_success_local_none env st from_filename to_filename bucket_name,
   upload_file_failure_state_unchanged env st from_filename to_filename bucket_name true⟩

/-- A concrete local filesystem holding one file, used to instantiate the
upload theorems. -/
def wStore : Store where
  objects := fun _ _ => none
  local_files := fun p => if p = "/tmp/model.pkl" then some "LOCALBYTES" else none

/-- Witness for C5: at the concrete store, a successful removing upload
deletes `/tmp/model.pkl`, and an upload from an absent path fails leaving the
store unchanged. -/
theorem upload_file_deletes_only_after_success_witness :
    (upload_file wEnv wStore "/tmp/model.pkl" "model.pkl" "models" true).1.local_files
      "/tmp/model.pkl" = none ∧
    ∃ e, upload_file wEnv wStore "/tmp/absent.pkl" "model.pkl" "models" true =
      (wStore, some e) :=
  ⟨(upload_file_deletes_only_after_success wEnv wStore "/tmp/model.pkl" "model.pkl"
      "models").1 (by decide),
   (upload_file_deletes_only_after_success wEnv wStore "/tmp/absent.pkl" "model.pkl"
      "models").2 (Or.inl (by decide))⟩

/-- C10: `remove` defaults to true, `upload_df_as_csv` leaves it at the
default, so a successful `upload_df_as_csv` deletes the local CSV it just
wrote; and in general a successful `upload_file` called with the default
`remove` deletes the local source file. -/
theorem upload_df_as_csv_deletes_local_csv (env : S3Env) (st : Store)
    (data_frame : DataFrame)
    (local_filename bucket_filename bucket_name from_filename to_filename : String) :
    remove_default = true ∧
    upload_df_as_csv env st data_frame local_filename bucket_filename bucket_name =
      upload_file env
        { st with local_files := fun p =>
            if p = local_filename then some (to_csv data_frame) else st.local_files p }
        local_filename bucket_filename bucket_name remove_default ∧
    ((upload_df_as_csv env st data_frame local_filename bucket_filename bucket_name).2 =
        none →
      (upload_df_as_csv env st data_frame local_filename bucket_filename
          bucket_name).1.local_files local_filename = none) ∧
    ((upload_file env st from_filename to_filename bucket_name remove_default).2 = none →
      (upload_file env st from_filename to_filename bucket_name
          remove_default).1.local_files from_filename = none) := by
  refine ⟨rfl, rfl, ?_, ?_⟩
  · exact upload_file_true_success_local_none env _ local_filename bucket_filename bucket_name
  · exact upload_file_true_success_local_none env st from_filename to_filename bucket_name

/-- Witness for C10 at the concrete store: the local CSV written by
`upload_df_as_csv` is gone after the successful call. -/
theorem upload_df_as_csv_deletes_local_csv_witness :
    (upload_df_as_csv wEnv wStore ⟨["c"], [["1"]]⟩ "/tmp/t.csv" "t.csv"
        "models").1.local_files "/tmp/t.csv" = none :=
  (upload_df_as_csv_deletes_local_csv wEnv wStore ⟨["c"], [["1"]]⟩ "/tmp/t.csv" "t.csv"
      "models" "x" "y").2.2.1 (by decide)

/-- C9: `upload_df_as_csv` serializes the table to delimited text at the local
path — a header row first, then exactly one comma-joined line per data row,
with no synthetic row-index column — and then uploads that local file to the
given bucket and key, so on success the stored object body is exactly the
serialized table. -/
theorem upload_df_as_csv_serializes_then_uploads (env : S3Env) (st : Store)
    (data_frame : DataFrame) (local_filename bucket_filename bucket_name : String)
    (h : env.uploadFault local_filename bucket_name bucket_filename = false) :
    (upload_df_as_csv env st data_frame local_filename bucket_filename bucket_name).2 =
      none ∧
    (upload_df_as_csv env st data_frame local_filename bucket_filename
        bucket_name).1.objects bucket_name bucket_filename = some (to_csv data_frame) ∧
    to_csv data_frame =
      String.intercalate "\n"
        (String.intercalate "," data_frame.headers ::
          data_frame.rows.map (String.intercalate ",")) ++ "\n" := by
  refine ⟨?_, ?_, rfl⟩ <;>
    simp [upload_df_as_csv, upload_file, h, os_remove, putObject, putObject_local_files,
      remove_default]

/-- Witness for C9 at the concrete store. -/
theorem upload_df_as_csv_serializes_then_uploads_witness :
    (upload_df_as_csv wEnv wStore ⟨["a", "b"], [["1", "2"]]⟩ "/tmp/u.csv" "u.csv"
        "models").1.objects "models" "u.csv" =
      some (to_csv ⟨["a", "b"], [["1", "2"]]⟩) :=
  (upload_df_as_csv_serializes_then_uploads wEnv wStore ⟨["a", "b"], [["1", "2"]]⟩
      "/tmp/u.csv" "u.csv" "models" (by decide)).2.1

/-- A key never equals itself with `"/"` appended. -/
theorem ne_append_slash (s : String) : s ≠ s ++ "/" := by
  intro h
  have h2 := congrArg String.length h
  have h3 : ("/" : String).length = 1 := by decide
  rw [String.length_append, h3] at h2
  omega

/-- An empty store: no bucket objects, no local files. -/
def cfStore : Store where
  objects := fun _ _ => none
  local_files := fun _ => none

/-- The store after `create_folder` has created the marker `"artifacts/"`. -/
def cfStore1 : Store := putObject cfStore "models" ("artifacts" ++ "/") ""

/-- C4 counterexample: the existence check heads `folder_name` without the
trailing slash while the marker is created at `folder_name ++ "/"`, so after a
first call has created the marker, a second call still sees a 404 and performs
the put again — it is not a no-op and does perform a write. -/
theorem create_folder_second_call_writes_again :
    create_folder wEnv cfStore "artifacts" "models" =
      .ok (cfStore1, [.put "models" ("artifacts" ++ "/")]) ∧
    cfStore1.objects "models" "artifacts/" = some "" ∧
    (create_folder wEnv cfStore1 "artifacts" "models").map (fun r => r.2) =
      .ok [.put "models" ("artifacts" ++ "/")] := by
  refine ⟨rfl, by decide, ?_⟩
  have hne : ("artifacts" : String) ≠ "artifacts" ++ "/" := by decide
  simp [create_folder, cfStore1, putObject, cfStore, wEnv, hne, Except.map]

/-- C4 amended: `create_folder` heads `folder_name` (without a trailing
slash); a backend 404 makes it create the zero-byte marker at
`folder_name ++ "/"`; a `ClientError` with any other code is silently
swallowed (normal return, no write) rather than propagated; only
non-`ClientError` failures propagate; and because the check and the marker use
different keys, a repeated call performs the put again — the final store is
pointwise unchanged (idempotent in effect) but the second call is not
write-free. -/
theorem create_folder_amended_behaviour (env : S3Env) (st : Store)
    (folder_name bucket_name : String) :
    (env.headFault bucket_name folder_name = none →
      (∀ v, st.objects bucket_name folder_name = some v →
        create_folder env st folder_name bucket_name = .ok (st, [])) ∧
      (st.objects bucket_name folder_name = none →
        create_folder env st folder_name bucket_name =
          .ok (putObject st bucket_name (folder_name ++ "/") "",
               [.put bucket_name (folder_name ++ "/")]))) ∧
    (∀ code, code ≠ "404" →
      env.headFault bucket_name folder_name = some (.clientError code) →
      create_folder env st folder_name bucket_name = .ok (st, [])) ∧
    (env.headFault bucket_name folder_name = some (.clientError "404") →
      create_folder env st folder_name bucket_name =
        .ok (putObject st bucket_name (folder_name ++ "/") "",
             [.put bucket_name (folder_name ++ "/")])) ∧
    (env.headFault bucket_name folder_name = some .otherError →
      create_folder env st folder_name bucket_name = .error .headError) ∧
    (env.headFault bucket_name folder_name = none →
      st.objects bucket_name folder_name = none →
      create_folder env (putObject st bucket_name (folder_name ++ "/") "")
          folder_name bucket_name =
        .ok (putObject (putObject st bucket_name (folder_name ++ "/") "") bucket_name
              (folder_name ++ "/") "",
             [.put bucket_name (folder_name ++ "/")]) ∧
      ∀ b k,
        (putObject (putObject st bucket_name (folder_name ++ "/") "") bucket_name
            (folder_name ++ "/") "").objects b k =
          (putObject st bucket_name (folder_name ++ "/") "").objects b k) := by
  refine ⟨fun hf => ⟨fun v hv => ?_, fun h0 => ?_⟩, fun code hc hf => ?_, fun hf => ?_,
    fun hf => ?_, fun hf h0 => ⟨?_, fun b k => ?_⟩⟩
  · simp [create_folder, hf, hv]
  · simp [create_folder, hf, h0]
  · simp [create_folder, hf, hc]
  · simp [create_folder, hf]
  · simp [create_folder, hf]
  · simp [create_folder, hf, putObject, ne_append_slash folder_name, h0]
  · by_cases hc : b = bucket_name ∧ k = folder_name ++ "/" <;> simp [putObject, hc]

/-- A store already holding an object at the exact key `"artifacts"`. -/
def cfStoreObj : Store where
  objects := fun b k => if b = "models" ∧ k = "artifacts" then some "X" else none
  local_files := fun _ => none

/-- Witness for the amended C4: at the empty store a 404 creates the marker;
at a store where the headed key exists nothing is written. -/
theorem create_folder_amended_behaviour_witness :
    create_folder wEnv cfStore "artifacts" "models" =
      .ok (putObject cfStore "models" ("artifacts" ++ "/") "",
           [.put "models" ("artifacts" ++ "/")]) ∧
    create_folder wEnv cfStoreObj "artifacts" "models" = .ok (cfStoreObj, []) :=
  ⟨((create_folder_amended_behaviour wEnv cfStore "artifacts" "models").1 rfl).2 rfl,
   ((create_folder_amended_behaviour wEnv cfStoreObj "artifacts" "models").1 rfl).1 "X"
     (by decide)⟩

/-- C8: `get_df_from_object` reads the object's content with `decode` left at
its default (text) and `make_readable=True` (wrapped as a readable stream),
and parses it as delimited text with `na_values="na"`: the headers come from
the first row and any cell equal to the sentinel `"na"` becomes a missing
value — in particular no parsed cell ever holds the literal `"na"`. -/
theorem get_df_from_object_parses_stream (env : S3Env) (object_ : S3Obj) (s : String)
    (h : env.getBody object_.bucket_name object_.key = some s) :
    read_object env object_ decode_default true =
      .ok (.readable s, [.netRead object_.bucket_name object_.key]) ∧
    get_df_from_object env object_ =
      .ok (read_csv_model "na" s, [.netRead object_.bucket_name object_.key]) ∧
    (∀ hline rest, (splitStr '\n' s).filter (fun l => l ≠ "") = hline :: rest →
      (read_csv_model "na" s).headers = splitStr ',' hline ∧
      (read_csv_model "na" s).rows =
        rest.map fun r => (splitStr ',' r).map fun c => if c = "na" then none else some c) ∧
    (∀ row ∈ (read_csv_model "na" s).rows, ∀ c ∈ row, c ≠ some "na") := by
  refine ⟨?_, ?_, fun hline rest hsplit => ?_, fun row hrow c hc => ?_⟩
  · simp [read_object, decode_default, h]
  · simp [get_df_from_object, read_object, decode_default, h, Except.bind]
  · unfold read_csv_model
    rw [hsplit]
    exact ⟨rfl, rfl⟩
  · unfold read_csv_model at hrow
    rcases hsplit : (splitStr '\n' s).filter (fun l => l ≠ "") with _ | ⟨hl, rest⟩ <;>
      rw [hsplit] at hrow
    · simp at hrow
    · simp only [List.mem_map] at hrow
      obtain ⟨r, _, hr⟩ := hrow
      subst hr
      simp only [List.mem_map] at hc
      obtain ⟨c0, _, hc0⟩ := hc
      intro habs
      subst hc0
      by_cases hna : c0 = "na" <;> simp [hna] at habs

/-- A backend holding one small CSV object, used to instantiate the read
theorems. -/
def wCsvEnv : S3Env :=
  { wEnv with getBody := fun b k =>
      if b = "data" ∧ k = "t.csv" then some "colA,colB\n1,na\n" else none }

/-- Witness for C8 at the concrete backend: the object parses to headers from
the first row with the `"na"` cell read as missing. -/
theorem get_df_from_object_parses_stream_witness :
    get_df_from_object wCsvEnv ⟨"data", "t.csv"⟩ =
      .ok (read_csv_model "na" "colA,colB\n1,na\n", [.netRead "data" "t.csv"]) ∧
    read_csv_model "na" "colA,colB\n1,na\n" =
      ⟨["colA", "colB"], [[some "1", none]]⟩ :=
  ⟨(get_df_from_object_parses_stream wCsvEnv ⟨"data", "t.csv"⟩ "colA,colB\n1,na\n"
      (by decide)).2.1,
   by decide⟩

/-- A `predict` call on a Loaded adapter uses the cached model and performs no
backend events. -/
theorem predict_loaded (env : S3Env) (est : Proj1Estimator) (dataframe : String) (model : Nat)
    (h : est.loaded_model = some model) :
    Proj1Estimator.predict env est dataframe =
      .ok (est, env.runPredict model dataframe, []) := by
  simp [Proj1Estimator.predict, h]

/-- Any number of `predict` calls on a Loaded adapter leaves it unchanged and
performs no backend events. -/
theorem predictN_loaded (env : S3Env) (est : Proj1Estimator) (dataframe : String) (model : Nat)
    (h : est.loaded_model = some model) (n : Nat) :
    predictN env est dataframe n = .ok (est, []) := by
  induction n with
  | zero => rfl
  | succ n ih =>
    simp [predictN, predict_loaded env est dataframe model h, ih, Except.bind, Except.map]

/-- A `predict` call on an Unloaded adapter, when the backend resolves the
configured key and the bytes deserialize, performs exactly one listing, one
body read and one deserialization, caches the model instance and runs it. -/
theorem predict_unloaded (env : S3Env) (est : Proj1Estimator) (dataframe k body : String)
    (ks : List String) (model : Nat)
    (h0 : est.loaded_model = none)
    (hl : env.listObjects est.bucket_name est.model_path = k :: ks)
    (hb : env.getBody est.bucket_name k = some body)
    (hu : env.unpickle body = some model) :
    Proj1Estimator.predict env est dataframe =
      .ok ({ est with loaded_model := some model }, env.runPredict model dataframe,
           [.listObj est.bucket_name est.model_path, .netRead est.bucket_name k,
            .deserialize]) := by
  simp [Proj1Estimator.predict, Proj1Estimator.load_model, SimpleStorageService.load_model,
    get_file_object, read_object, make_readable_default, h0, hl, hb, hu, Except.bind,
    Except.map]

/-- C2: starting Unloaded, any run of two or more consecutive `predict` calls
performs exactly one network body read and exactly one deserialization in
total — the first call loads and caches, and no later call loads again. -/
theorem predict_loads_exactly_once (env : S3Env) (est : Proj1Estimator)
    (dataframe k body : String) (ks : List String) (model : Nat) (n : Nat)
    (h0 : est.loaded_model = none)
    (hl : env.listObjects est.bucket_name est.model_path = k :: ks)
    (hb : env.getBody est.bucket_name k = some body)
    (hu : env.unpickle body = some model)
    (hn : 2 ≤ n) :
    ∃ evs,
      predictN env est dataframe n =
        .ok ({ est with loaded_model := some model }, evs) ∧
      countReads evs = 1 ∧ countDeser evs = 1 := by
  obtain ⟨n1, rfl⟩ : ∃ n1, n = n1 + 1 := ⟨n - 1, by omega⟩
  have hp := predict_unloaded env est dataframe k body ks model h0 hl hb hu
  have hpl := predictN_loaded env { est with loaded_model := some model } dataframe model rfl n1
  refine ⟨[.listObj est.bucket_name est.model_path, .netRead est.bucket_name k,
    .deserialize], ?_, by simp [countReads, List.filter], by simp [countDeser, List.filter]⟩
  simp [predictN, hp, hpl, Except.bind, Except.map]

/-- The adapter freshly constructed on the concrete backend: Unloaded. -/
def wEst : Proj1Estimator := ⟨"models", "prod/model.pkl", none⟩

/-- Witness for C2: two calls on the concrete backend, one read and one
deserialization in total. -/
theorem predict_loads_exactly_once_witness :
    ∃ evs,
      predictN wEnv wEst "row" 2 = .ok ({ wEst with loaded_model := some 5 }, evs) ∧
      countReads evs = 1 ∧ countDeser evs = 1 :=
  predict_loads_exactly_once wEnv wEst "row" "prod/model.pkl" "PKLBYTES" [] 5 2 rfl
    (by decide) (by decide) (by decide) (by omega)

/-- An adapter already in the Loaded state, caching model id 7, on the
concrete backend whose stored artifact deserializes to model id 5. -/
def wEstLoaded : Proj1Estimator := ⟨"models", "prod/model.pkl", some 7⟩

/-- C3 counterexample: `Proj1Estimator.load_model` on a Loaded adapter still
lists, fetches the body over the network and re-deserializes, and returns the
freshly deserialized model id 5 instead of the cached instance 7 — so the
claim that `load()` returns the cached instance without any network access
when already Loaded is false of `load_model` as implemented. -/
theorem load_model_refetches_when_loaded :
    wEstLoaded.loaded_model = some 7 ∧
    Proj1Estimator.load_model wEnv wEstLoaded =
      .ok (5, [.listObj "models" "prod/model.pkl", .netRead "models" "prod/model.pkl",
               .deserialize]) ∧
    countReads [.listObj "models" "prod/model.pkl", .netRead "models" "prod/model.pkl",
      .deserialize] = 1 ∧
    (5 : Nat) ≠ 7 := by
  refine ⟨rfl, ?_, by decide, by decide⟩
  rfl

/-- C3 amended: `Proj1Estimator.load_model` always resolves the configured
key, reads the raw bytes and deserializes, regardless of the adapter's state,
and never touches the cache field; the Unloaded check, the transition to
Loaded and the caching of the instance are performed by its sole caller
`predict` — which, when already Loaded, uses the cached instance with no
network access. -/
theorem load_model_fetches_predict_caches (env : S3Env) (est : Proj1Estimator)
    (dataframe k body : String) (ks : List String) (model : Nat)
    (hl : env.listObjects est.bucket_name est.model_path = k :: ks)
    (hb : env.getBody est.bucket_name k = some body)
    (hu : env.unpickle body = some model) :
    Proj1Estimator.load_model env est =
      .ok (model, [.listObj est.bucket_name est.model_path, .netRead est.bucket_name k,
                   .deserialize]) ∧
    (est.loaded_model = none →
      Proj1Estimator.predict env est dataframe =
        .ok ({ est with loaded_model := some model }, env.runPredict model dataframe,
             [.listObj est.bucket_name est.model_path, .netRead est.bucket_name k,
              .deserialize])) ∧
    (∀ m0, est.loaded_model = some m0 →
      Proj1Estimator.predict env est dataframe =
        .ok (est, env.runPredict m0 dataframe, [])) := by
  refine ⟨?_, fun h0 => predict_unloaded env est dataframe k body ks model h0 hl hb hu,
    fun m0 h => predict_loaded env est dataframe m0 h⟩
  simp [Proj1Estimator.load_model, SimpleStorageService.load_model, get_file_object,
    read_object, make_readable_default, hl, hb, hu, Except.bind]

/-- Witness for the amended C3 on the concrete backend and a Loaded adapter:
the bare `load_model` re-fetches, while `predict` uses the cache with no
events. -/
theorem load_model_fetches_predict_caches_witness :
    Proj1Estimator.load_model wEnv wEstLoaded =
      .ok (5, [.listObj "models" "prod/model.pkl", .netRead "models" "prod/model.pkl",
               .deserialize]) ∧
    Proj1Estimator.predict wEnv wEstLoaded "row" =
      .ok (wEstLoaded, wEnv.runPredict 7 "row", []) :=
  ⟨(load_model_fetches_predict_caches wEnv wEstLoaded "row" "prod/model.pkl" "PKLBYTES"
      [] 5 (by decide) (by decide) (by decide)).1,
   (load_model_fetches_predict_caches wEnv wEstLoaded "row" "prod/model.pkl" "PKLBYTES"
      [] 5 (by decide) (by decide) (by decide)).2.2 7 rfl⟩
